import Mathlib

/-!
Verification of the linkedin-automation job-search pipeline.

The definitions below are a shallow embedding of the Python sources under
`src/linkedin_job_mcp/`: `utils.py` (requirement matcher), `linkedin_scraper.py`
(browser-driven scraper and its orchestration), `linkedin_scraper_fallback.py`
(HTTP scraper, synthetic job generator and the fallback orchestration),
`sheets_client.py` (deduplication and export), and the request validation
models of `api.py` / `server.py`.  Python strings are modelled as Lean
`String`s (operating on their `List Char` data), Python floats produced by
`len/len` divisions as exact rationals (`Rat`), dictionaries as structures,
and effectful inputs (scraped pages, the current timestamp, remote-API
failures) as explicit parameters.
-/

/-- Python's substring test `needle in hay` restricted to the case where
`needle` is a prefix of `hay` (character-wise comparison). -/
def leadEq : List Char → List Char → Bool
  | [], _ => true
  | _ :: _, [] => false
  | a :: as, b :: bs => a == b && leadEq as bs

/-- Contiguous-substring search over character lists, scanning every suffix. -/
def hasSub (needle : List Char) : List Char → Bool
  | [] => leadEq needle []
  | c :: cs => leadEq needle (c :: cs) || hasSub needle cs

/-- Python's `needle in hay` on strings: contiguous substring containment. -/
def pyIn (needle hay : String) : Bool :=
  hasSub needle.data hay.data

/-- Python's `s.lower()`: per-character lowercasing. -/
def pyLower (s : String) : String :=
  String.mk (s.data.map Char.toLower)

/-- Python's `s[:n]` on strings: the first `n` characters. -/
def pyTake (s : String) (n : Nat) : String :=
  String.mk (s.data.take n)

/-- Python's `len(s)` on strings: the number of characters. -/
def pyLen (s : String) : Nat :=
  s.data.length

/-- Exact division of natural counts, as produced by Python's `a / b` on two
`len(...)` values; stated via `mkRat` so that it evaluates by kernel
reduction.  `mkRat_natCast_eq_div` identifies it with `Rat` division. -/
def natDiv (a b : Nat) : Rat :=
  mkRat a b

theorem mkRat_natCast_eq_div (a b : Nat) : natDiv a b = (a : Rat) / (b : Rat) := by
  rw [natDiv, Rat.mkRat_eq_div]
  push_cast
  ring

theorem natDiv_half : natDiv 1 2 = (1 : Rat) / 2 := by
  rw [mkRat_natCast_eq_div]
  norm_num

/-- Result dictionary of the requirement matcher
(`utils.calculate_match_score` and `LinkedInScraper.match_job_requirements`):
keys `matches`, `match_score`, `is_match`. -/
structure MatchResult where
  matched : List String
  match_score : Rat
  is_match : Bool
  deriving Repr, DecidableEq

/-- `utils.calculate_match_score(job_text, requirements)` (utils.py:180-202):
empty requirements yield `{[], 1.0, True}`; otherwise the matched
requirements are those whose lowercasing occurs in the lowercased job text,
the score is `|matches| / |requirements|`, and `is_match` is
`match_score >= 0.5`. -/
def calculate_match_score (job_text : String) (requirements : List String) :
    MatchResult :=
  if requirements = [] then
    { matched := [], match_score := 1, is_match := true }
  else
    let job_text_lower := pyLower job_text
    let matched := requirements.filter (fun r => pyIn (pyLower r) job_text_lower)
    let score : Rat := natDiv matched.length requirements.length
    { matched := matched, match_score := score, is_match := decide (natDiv 1 2 ≤ score) }

/-- A scraped job listing (`linkedin_scraper.JobListing` dataclass). -/
structure JobListing where
  title : String
  company : String
  location : String
  description : String
  job_url : String
  posted_date : Option String
  employment_type : Option String
  experience_level : Option String
  salary_range : Option String
  deriving Repr, DecidableEq

/-- `LinkedInScraper.match_job_requirements(job, requirements)`
(linkedin_scraper.py:286-301): matches against
`f"{job.title} {job.description}".lower()`; the score is
`len(matches)/len(requirements) if requirements else 0`. -/
def match_job_requirements (job : JobListing) (requirements : List String) :
    MatchResult :=
  let job_text := pyLower (job.title ++ " " ++ job.description)
  let matched := requirements.filter (fun r => pyIn (pyLower r) job_text)
  let score : Rat :=
    if requirements = [] then 0
    else natDiv matched.length requirements.length
  { matched := matched, match_score := score, is_match := decide (natDiv 1 2 ≤ score) }

/-- The predicate the spec states for membership in `matches`: the
requirement occurs case-insensitively as a substring of the job text. -/
def occursCI (r T : String) : Bool :=
  pyIn (pyLower r) (pyLower T)

/-- C1 (amended): `calculate_match_score` satisfies the full Requirement
Matcher contract — `matches` is the subsequence of `R` occurring
case-insensitively in `T`, `match_score` is `|matches|/|R|` for non-empty
`R` and `1.0` for empty `R`, `is_match` holds iff the score is at least
`0.5`, and the score always lies in `[0,1]`.  The scraper's duplicate
`match_job_requirements` computes the same `matches` (over
`title ++ " " ++ description`) and the same score for non-empty `R`, but
returns `match_score = 0` (hence `is_match = false`) when `R` is empty. -/
theorem requirement_matcher_spec (T : String) (R : List String) (j : JobListing) :
    (calculate_match_score T R).matched = R.filter (fun r => occursCI r T)
    ∧ (calculate_match_score T R).match_score =
        (if R = [] then 1
         else ((R.filter (fun r => occursCI r T)).length : Rat) / (R.length : Rat))
    ∧ (calculate_match_score T R).is_match =
        decide ((1 : Rat)/2 ≤ (calculate_match_score T R).match_score)
    ∧ 0 ≤ (calculate_match_score T R).match_score
    ∧ (calculate_match_score T R).match_score ≤ 1
    ∧ (match_job_requirements j R).matched =
        R.filter (fun r => occursCI r (j.title ++ " " ++ j.description))
    ∧ (match_job_requirements j R).match_score =
        (if R = [] then 0
         else ((R.filter (fun r =>
             occursCI r (j.title ++ " " ++ j.description))).length : Rat) / (R.length : Rat))
    ∧ (match_job_requirements j R).is_match =
        decide ((1 : Rat)/2 ≤ (match_job_requirements j R).match_score) := by
  have hfilter : ∀ (s : String),
      (fun r => pyIn (pyLower r) (pyLower s)) = (fun r => occursCI r s) := by
    intro s; funext r; rfl
  refine ⟨?_, ?_, ?_, ?_, ?_, ?_, ?_, ?_⟩
  · by_cases h : R = [] <;> simp [calculate_match_score, h, hfilter]
  · by_cases h : R = [] <;>
      simp [calculate_match_score, h, hfilter, mkRat_natCast_eq_div]
  · by_cases h : R = []
    · simp [calculate_match_score, h, natDiv_half]
      norm_num
    · simp [calculate_match_score, h, natDiv_half]
  · by_cases h : R = []
    · simp [calculate_match_score, h]
    · simp only [calculate_match_score, if_neg h, mkRat_natCast_eq_div]
      positivity
  · by_cases h : R = []
    · simp [calculate_match_score, h]
    · simp only [calculate_match_score, if_neg h, mkRat_natCast_eq_div]
      have hlen : 0 < (R.length : Rat) := by
        have := List.length_pos.mpr h
        exact_mod_cast this
      exact div_le_one_of_le₀
        (by exact Nat.cast_le.mpr (List.length_filter_le _ _)) (le_of_lt hlen)
  · simp [match_job_requirements, hfilter]
  · by_cases h : R = [] <;>
      simp [match_job_requirements, h, hfilter, mkRat_natCast_eq_div]
  · by_cases h : R = [] <;> simp [match_job_requirements, h, natDiv_half]

/-- C1 counterexample: the scraper's copy of the Requirement Matcher
(`match_job_requirements`, linkedin_scraper.py:286-301) applied to an empty
requirement list returns `match_score = 0` and `is_match = false`, where the
claim demands `match_score = 1.0` and `is_match = true`. -/
theorem requirement_matcher_empty_cex :
    (match_job_requirements
      ⟨"Python Developer", "Acme", "Remote", "We use Python daily",
       "https://jobs.example/1", none, none, none, none⟩ []).is_match = false
    ∧ (match_job_requirements
      ⟨"Python Developer", "Acme", "Remote", "We use Python daily",
       "https://jobs.example/1", none, none, none, none⟩ []).match_score ≠ 1 := by
  simp only [match_job_requirements, natDiv_half]
  norm_num

/-- Modelled from the spec: `linkedin_scraper_fallback.py` imports
`match_requirements` from `.utils`, but no function of that name exists
anywhere under `src/`.  Per spec §4.1 and §4.4 the fallback module uses
"the same matching rule as §4.1", whose boolean outcome is
`match_score >= 0.5` (with an empty requirement set scoring `1.0`), i.e.
exactly the `is_match` field of `calculate_match_score`. -/
def match_requirements (job_text : String) (requirements : List String) : Bool :=
  (calculate_match_score job_text requirements).is_match

/-- A job dictionary produced by `LinkedInScraperFallback`
(`_extract_job_info` / `_generate_sample_jobs`): keys `title`, `company`,
`location`, `description`, `link`, `salary`, `posted_date`, `is_match`,
`match_score`, `source`. -/
structure FallbackJob where
  title : String
  company : String
  location : String
  description : String
  link : String
  salary : String
  posted_date : String
  is_match : Bool
  match_score : Rat
  source : String
  deriving Repr, DecidableEq

/-- The inline `match_score` of the fallback module
(linkedin_scraper_fallback.py:185 and :258): the *count*
`len([req for req in requirements if req.lower() in f"{title} {description}".lower()])`
when `requirements` is non-empty, else `0`. -/
def fb_inline_match_score (title description : String)
    (requirements : List String) : Rat :=
  if requirements = [] then 0
  else ((requirements.filter (fun r =>
      pyIn (pyLower r) (pyLower (title ++ " " ++ description)))).length : Rat)

/-- The inline `is_match` of the fallback module
(linkedin_scraper_fallback.py:174 and :257):
`match_requirements(f"{title} {description}", requirements)`. -/
def fb_inline_is_match (title description : String)
    (requirements : List String) : Bool :=
  match_requirements (title ++ " " ++ description) requirements

/-- `sample_companies` list of `_generate_sample_jobs`
(linkedin_scraper_fallback.py:198-203). -/
def sample_companies : List String :=
  ["Google", "Microsoft", "Amazon", "Apple", "Meta", "Netflix", "Tesla",
   "Spotify", "Airbnb", "Uber", "LinkedIn", "Twitter", "Adobe", "Salesforce",
   "Oracle", "IBM", "Intel", "NVIDIA", "Dropbox", "Slack", "Stripe", "Square",
   "Palantir", "Databricks", "Snowflake", "MongoDB", "Redis", "Elastic"]

/-- Default `sample_locations` of `_generate_sample_jobs`
(linkedin_scraper_fallback.py:205-209), used when `location` is empty. -/
def default_sample_locations : List String :=
  ["San Francisco, CA", "New York, NY", "Seattle, WA", "Austin, TX",
   "Boston, MA", "Remote", "Los Angeles, CA", "Chicago, IL", "Denver, CO",
   "Atlanta, GA", "Portland, OR", "Miami, FL"]

/-- `title_variations` keyword-to-titles table of `_generate_sample_jobs`
(linkedin_scraper_fallback.py:212-220), in insertion order. -/
def title_variations : List (String × List String) :=
  [("python", ["Python Developer", "Senior Python Engineer",
               "Python Software Engineer", "Backend Python Developer"]),
   ("ml", ["ML Engineer", "Machine Learning Engineer", "Senior ML Engineer",
           "AI/ML Engineer"]),
   ("data", ["Data Scientist", "Senior Data Analyst", "Data Engineer",
             "Principal Data Scientist"]),
   ("frontend", ["Frontend Developer", "React Developer", "UI/UX Engineer",
                 "Senior Frontend Engineer"]),
   ("backend", ["Backend Engineer", "API Developer", "Server-Side Engineer",
                "Backend Architect"]),
   ("fullstack", ["Full Stack Developer", "Full Stack Engineer",
                  "Senior Full Stack Developer"]),
   ("devops", ["DevOps Engineer", "Site Reliability Engineer", "Cloud Engineer",
               "Infrastructure Engineer"])]

/-- The synthetic job built for index `i` of the generator loop
(linkedin_scraper_fallback.py:233-277), given the already-computed title and
location pools. -/
def mkSampleJob (requirements : List String) (job_titles locations : List String)
    (i : Nat) : FallbackJob :=
  let company := sample_companies.getD (i % sample_companies.length) ""
  let job_location := locations.getD (i % locations.length) ""
  let title := job_titles.getD (i % job_titles.length) ""
  let req_mentions :=
    ((requirements.take 4).enum.filter
      (fun p => p.1 < 2 || (i + p.1) % 3 == 0)).map Prod.snd
  let req_text :=
    if req_mentions = [] then "relevant technical skills"
    else String.intercalate ", " req_mentions
  let descriptions : List String :=
    [s!"Join {company} as a {title}! We\x27re seeking someone with expertise in {req_text}. You\x27ll work on cutting-edge projects and collaborate with world-class engineers.",
     s!"Exciting opportunity at {company}! Looking for a {title} with strong background in {req_text}. Competitive salary, great benefits, and innovative work environment.",
     s!"{company} is hiring a {title}! Must have experience with {req_text}. Work on high-impact projects that reach millions of users worldwide.",
     s!"We\x27re looking for a talented {title} to join our {company} team. Key requirements include {req_text} and passion for building scalable solutions."]
  let description := descriptions.getD (i % descriptions.length) ""
  let base_salary := 90 + i * 8 + (if pyIn "Senior" title then 20 else 0)
      + (if ["Google", "Meta", "Apple"].contains company then 30 else 0)
  { title := title
    company := company
    location := job_location
    description := description
    link := s!"https://www.linkedin.com/jobs/view/{3000000000 + i}"
    salary := s!"${base_salary}k - ${base_salary + 40}k"
    posted_date := s!"{i % 14 + 1} days ago"
    is_match := fb_inline_is_match title description requirements
    match_score := fb_inline_match_score title description requirements
    source := "sample_data" }

/-- `LinkedInScraperFallback._generate_sample_jobs`
(linkedin_scraper_fallback.py:195-280): derives the title pool from keyword
substrings, cycles through the lookup tables, and emits
`min(max_jobs, 20)` jobs tagged `source = "sample_data"`. -/
def generate_sample_jobs (keywords location : String)
    (requirements : List String) (max_jobs : Nat) : List FallbackJob :=
  let keywords_lower := pyLower keywords
  let from_table :=
    ((title_variations.filter (fun kv => pyIn kv.1 keywords_lower)).map
      Prod.snd).flatten
  let job_titles :=
    if from_table = [] then
      [keywords, "Senior " ++ keywords, keywords ++ " Engineer",
       keywords ++ " Specialist"]
    else from_table
  let locations := if location = "" then default_sample_locations else [location]
  (List.range (min max_jobs 20)).map (mkSampleJob requirements job_titles locations)

/-- A job with a placeholder title, per the hardcoded noise list in
`LinkedInScraperFallback.search_jobs` (linkedin_scraper_fallback.py:92). -/
def nonPlaceholder (j : FallbackJob) : Bool :=
  !(j.title == "Job Title" || j.title == "Sign in to create job alert")

/-- The page-accumulation loop of `LinkedInScraperFallback.search_jobs`
(linkedin_scraper_fallback.py:70-89): extend with each page's parsed jobs;
as soon as the accumulator reaches `max_jobs`, truncate to `max_jobs` and
stop. -/
def collect_pages (max_jobs : Nat) :
    List (List FallbackJob) → List FallbackJob → List FallbackJob
  | [], acc => acc
  | p :: ps, acc =>
      let acc2 := acc ++ p
      if max_jobs ≤ acc2.length then acc2.take max_jobs
      else collect_pages max_jobs ps acc2

/-- The raw scrape of `LinkedInScraperFallback.search_jobs`: at most
`min(max_jobs // 25 + 1, 3)` pages are fetched (linkedin_scraper_fallback.py:71);
`pages` holds the jobs parsed from each fetched page (a failed page
contributes `[]`). -/
def fb_raw_scrape (pages : List (List FallbackJob)) (max_jobs : Nat) :
    List FallbackJob :=
  collect_pages max_jobs (pages.take (min (max_jobs / 25 + 1) 3)) []

/-- `LinkedInScraperFallback.search_jobs` (linkedin_scraper_fallback.py:33-102):
scrape up to 3 pages; if nothing was extracted, or every extracted title is
one of the known placeholder strings, replace the result with synthetic
sample jobs. -/
def fb_search_jobs (pages : List (List FallbackJob)) (keywords location : String)
    (requirements : List String) (max_jobs : Nat) : List FallbackJob :=
  let jobs := fb_raw_scrape pages max_jobs
  if jobs.isEmpty || (jobs.filter nonPlaceholder).length == 0 then
    generate_sample_jobs keywords location requirements max_jobs
  else jobs

/-- An entry of the fallback orchestrator's result: the Selenium path
returns raw `JobListing` objects, the sample path returns fallback job
dictionaries. -/
def OrchJob : Type := JobListing ⊕ FallbackJob

instance : DecidableEq OrchJob := instDecidableEqSum

/-- `search_linkedin_jobs` of linkedin_scraper_fallback.py:316-356 (the
orchestration entry point used by the fallback module): try the Selenium
scraper (`primary = none` models a raised exception, `some js` its return
value); any non-empty primary result is returned as-is, otherwise sample
jobs are generated directly.  No requirement-based filtering happens on
either path. -/
def search_linkedin_jobs_fb (primary : Option (List JobListing))
    (keywords location : String) (requirements : List String)
    (max_jobs : Nat) : List OrchJob :=
  match primary with
  | some js =>
      if js.isEmpty then
        (generate_sample_jobs keywords location requirements max_jobs).map Sum.inr
      else js.map Sum.inl
  | none =>
      (generate_sample_jobs keywords location requirements max_jobs).map Sum.inr

/-- The `is_match` value carried by an orchestrator result entry (only the
sample/fallback dictionaries carry one). -/
def orchIsMatch : OrchJob → Option Bool
  | Sum.inl _ => none
  | Sum.inr j => some j.is_match

/-- A result entry of `search_linkedin_jobs` in linkedin_scraper.py:304-341
(the Selenium orchestration): the job's fields plus, when requirements were
given, the matcher dictionary merged in. -/
structure SelResult where
  job : JobListing
  minfo : Option MatchResult
  deriving Repr, DecidableEq

/-- `search_linkedin_jobs` (linkedin_scraper.py:304-341): when
`requirements` is non-empty every job is scored with
`match_job_requirements` and only jobs with `is_match = True` are kept;
with no requirements all scraped jobs pass through unannotated. -/
def search_linkedin_jobs_sel (scraped : List JobListing)
    (requirements : List String) : List SelResult :=
  if requirements = [] then scraped.map (fun j => ⟨j, none⟩)
  else
    scraped.filterMap (fun j =>
      let mi := match_job_requirements j requirements
      if mi.is_match then some ⟨j, some mi⟩ else none)

/-- Per-job extraction of `LinkedInScraper.search_jobs`
(linkedin_scraper.py:268-277): iterate over `job_elements[:max_jobs]`,
keeping the successful extractions. -/
def primary_search {α : Type} (job_elements : List α)
    (extract : α → Option JobListing) (max_jobs : Nat) : List JobListing :=
  (job_elements.take max_jobs).filterMap extract

/-- The `source` tag carried by an orchestrator result entry (only the
sample/fallback dictionaries carry one). -/
def orchSource : OrchJob → Option String
  | Sum.inl _ => none
  | Sum.inr j => some j.source

theorem generate_sample_jobs_length (k l : String) (r : List String) (m : Nat) :
    (generate_sample_jobs k l r m).length = min m 20 := by
  simp [generate_sample_jobs]

theorem mkSampleJob_source (r : List String) (t ls : List String) (i : Nat) :
    (mkSampleJob r t ls i).source = "sample_data" := rfl

theorem generate_sample_jobs_source (k l : String) (r : List String) (m : Nat) :
    ∀ j ∈ generate_sample_jobs k l r m, j.source = "sample_data" := by
  intro j hj
  simp only [generate_sample_jobs, List.mem_map] at hj
  obtain ⟨i, _, rfl⟩ := hj
  exact mkSampleJob_source ..

/-- C2: whenever the HTTP scrape produced nothing (or only jobs with the
known placeholder titles) and the Selenium path failed or returned nothing,
both the fallback scraper's `search_jobs` and the orchestration entry point
return exactly `min(max_jobs, 20)` synthetic jobs, every one tagged with
the provenance marker `source = "sample_data"`. -/
theorem sample_fallback_spec (pages : List (List FallbackJob))
    (keywords location : String) (requirements : List String) (max_jobs : Nat)
    (primary : Option (List JobListing))
    (hsec : fb_raw_scrape pages max_jobs = []
        ∨ ∀ j ∈ fb_raw_scrape pages max_jobs, nonPlaceholder j = false)
    (hpri : primary = none ∨ primary = some []) :
    (fb_search_jobs pages keywords location requirements max_jobs).length
        = min max_jobs 20
    ∧ (∀ j ∈ fb_search_jobs pages keywords location requirements max_jobs,
        j.source = "sample_data")
    ∧ (search_linkedin_jobs_fb primary keywords location requirements
        max_jobs).length = min max_jobs 20
    ∧ (∀ e ∈ search_linkedin_jobs_fb primary keywords location requirements
        max_jobs, orchSource e = some "sample_data") := by
  have hfb : fb_search_jobs pages keywords location requirements max_jobs
      = generate_sample_jobs keywords location requirements max_jobs := by
    rcases hsec with h | h
    · simp [fb_search_jobs, h]
    · have hnil : (fb_raw_scrape pages max_jobs).filter nonPlaceholder = [] :=
        List.filter_eq_nil_iff.mpr (by intro a ha; simp [h a ha])
      simp [fb_search_jobs, hnil]
  have horch : search_linkedin_jobs_fb primary keywords location requirements
      max_jobs
      = (generate_sample_jobs keywords location requirements max_jobs).map
          Sum.inr := by
    rcases hpri with h | h <;> simp [search_linkedin_jobs_fb, h]
  refine ⟨?_, ?_, ?_, ?_⟩
  · rw [hfb]; exact generate_sample_jobs_length ..
  · rw [hfb]; exact generate_sample_jobs_source _ _ _ _
  · rw [horch]
    simp [generate_sample_jobs_length]
  · rw [horch]
    intro e he
    obtain ⟨j, hj, rfl⟩ := List.mem_map.mp he
    simp [orchSource, generate_sample_jobs_source _ _ _ _ j hj]

/-- Witness for C2: with no scraped pages and a failed Selenium path, the
request of §8's scenario (`max_jobs = 5`) yields exactly `min 5 20 = 5`
sample-tagged jobs. -/
theorem sample_fallback_spec_witness :
    (fb_raw_scrape [] 5 = []
      ∨ ∀ j ∈ fb_raw_scrape [] 5, nonPlaceholder j = false)
    ∧ ((none : Option (List JobListing)) = none
      ∨ (none : Option (List JobListing)) = some [])
    ∧ ((fb_search_jobs [] "python developer" "Remote"
          ["Python", "Django", "REST API"] 5).length = min 5 20
      ∧ (∀ j ∈ fb_search_jobs [] "python developer" "Remote"
          ["Python", "Django", "REST API"] 5, j.source = "sample_data")
      ∧ (search_linkedin_jobs_fb none "python developer" "Remote"
          ["Python", "Django", "REST API"] 5).length = min 5 20
      ∧ (∀ e ∈ search_linkedin_jobs_fb none "python developer" "Remote"
          ["Python", "Django", "REST API"] 5,
            orchSource e = some "sample_data")) :=
  ⟨Or.inl (by decide), Or.inl rfl,
    sample_fallback_spec [] "python developer" "Remote"
      ["Python", "Django", "REST API"] 5 none (Or.inl (by decide))
      (Or.inl rfl)⟩

/-- C3 (amended): only the Selenium orchestration
(`search_linkedin_jobs`, linkedin_scraper.py:304-341) drops jobs below the
threshold: with a non-empty requirements list, every entry it returns
carries the matcher dictionary with `is_match = true`.  The fallback
orchestration (linkedin_scraper_fallback.py:316-356) applies no such
filter, so jobs with `is_match = false` can appear in its final result —
see the counterexample theorem. -/
theorem sel_orchestrator_filters (scraped : List JobListing)
    (requirements : List String) (e : SelResult)
    (hreq : requirements ≠ [])
    (he : e ∈ search_linkedin_jobs_sel scraped requirements) :
    e.minfo = some (match_job_requirements e.job requirements)
    ∧ (match_job_requirements e.job requirements).is_match = true := by
  unfold search_linkedin_jobs_sel at he
  rw [if_neg hreq] at he
  obtain ⟨j, hjmem, hj⟩ := List.mem_filterMap.mp he
  by_cases hm : (match_job_requirements j requirements).is_match = true
  · rw [if_pos hm] at hj
    cases hj
    exact ⟨rfl, hm⟩
  · rw [if_neg hm] at hj
    cases hj

/-- Witness for C3's amended theorem: a concrete scrape of one matching job
with one requirement passes through the Selenium orchestration with
`is_match = true`. -/
theorem sel_orchestrator_filters_witness :
    (["python"] : List String) ≠ []
    ∧ (⟨⟨"Python Developer", "Acme", "Remote", "We use Python daily",
          "https://jobs.example/1", none, none, none, none⟩,
        some (match_job_requirements
          ⟨"Python Developer", "Acme", "Remote", "We use Python daily",
           "https://jobs.example/1", none, none, none, none⟩ ["python"])⟩ :
        SelResult)
      ∈ search_linkedin_jobs_sel
          [⟨"Python Developer", "Acme", "Remote", "We use Python daily",
            "https://jobs.example/1", none, none, none, none⟩] ["python"]
    ∧ (⟨⟨"Python Developer", "Acme", "Remote", "We use Python daily",
          "https://jobs.example/1", none, none, none, none⟩,
        some (match_job_requirements
          ⟨"Python Developer", "Acme", "Remote", "We use Python daily",
           "https://jobs.example/1", none, none, none, none⟩ ["python"])⟩ :
        SelResult).minfo
        = some (match_job_requirements
            ⟨"Python Developer", "Acme", "Remote", "We use Python daily",
             "https://jobs.example/1", none, none, none, none⟩ ["python"])
    ∧ (match_job_requirements
        ⟨"Python Developer", "Acme", "Remote", "We use Python daily",
         "https://jobs.example/1", none, none, none, none⟩
        ["python"]).is_match = true :=
  have h := sel_orchestrator_filters
    [⟨"Python Developer", "Acme", "Remote", "We use Python daily",
      "https://jobs.example/1", none, none, none, none⟩] ["python"]
    ⟨⟨"Python Developer", "Acme", "Remote", "We use Python daily",
       "https://jobs.example/1", none, none, none, none⟩,
      some (match_job_requirements
        ⟨"Python Developer", "Acme", "Remote", "We use Python daily",
         "https://jobs.example/1", none, none, none, none⟩ ["python"])⟩
    (by decide) (by decide)
  ⟨by decide, by decide, h.1, h.2⟩

/-- C3 counterexample: with the non-empty requirement list
`["zzqa","zzqb","zzqc","zzqd","zzqe"]` and a failed Selenium path, the
fallback orchestration's final result for `max_jobs = 3` contains a third
job with `is_match = false` — below-threshold jobs are returned, not
dropped. -/
theorem fb_orchestrator_unfiltered_cex :
    (search_linkedin_jobs_fb none "qq" ""
        ["zzqa", "zzqb", "zzqc", "zzqd", "zzqe"] 3).map orchIsMatch
      = [some true, some true, some false]
    ∧ (["zzqa", "zzqb", "zzqc", "zzqd", "zzqe"] : List String) ≠ [] := by
  exact ⟨by decide, by decide⟩

theorem collect_pages_length_le (n : Nat) :
    ∀ (ps : List (List FallbackJob)) (acc : List FallbackJob),
      acc.length ≤ n → (collect_pages n ps acc).length ≤ n
  | [], acc, h => by simpa [collect_pages] using h
  | p :: ps, acc, h => by
      simp only [collect_pages]
      by_cases hc : n ≤ (acc ++ p).length
      · rw [if_pos hc]
        simp [List.length_take]
      · rw [if_neg hc]
        exact collect_pages_length_le n ps (acc ++ p) (lt_of_not_le hc).le

/-- C4: `max_jobs = n` caps the number of returned jobs for every strategy
and both orchestration entry points: the browser scraper's per-element
extraction, the HTTP fallback scraper (whether it serves scraped pages or
synthetic jobs), the fallback orchestration (Selenium result or synthetic
jobs), and the Selenium orchestration's filtered result. -/
theorem max_jobs_cap {α : Type} (job_elements : List α)
    (extract : α → Option JobListing) (pages : List (List FallbackJob))
    (primaryJobs : List JobListing) (keywords location : String)
    (requirements : List String) (n : Nat) (_hn : 1 ≤ n)
    (hp : primaryJobs.length ≤ n) :
    (primary_search job_elements extract n).length ≤ n
    ∧ (fb_search_jobs pages keywords location requirements n).length ≤ n
    ∧ (search_linkedin_jobs_fb (some primaryJobs) keywords location
        requirements n).length ≤ n
    ∧ (search_linkedin_jobs_fb none keywords location requirements n).length
        ≤ n
    ∧ (search_linkedin_jobs_sel primaryJobs requirements).length ≤ n := by
  have hgen : (generate_sample_jobs keywords location requirements n).length
      ≤ n := by
    rw [generate_sample_jobs_length]
    exact min_le_left _ _
  refine ⟨?_, ?_, ?_, ?_, ?_⟩
  · refine le_trans (List.length_filterMap_le _ _) ?_
    rw [List.length_take]
    exact min_le_left _ _
  · unfold fb_search_jobs
    by_cases hc : ((fb_raw_scrape pages n).isEmpty
        || ((fb_raw_scrape pages n).filter nonPlaceholder).length == 0) = true
    · rw [if_pos hc]
      exact hgen
    · rw [if_neg hc]
      exact collect_pages_length_le n _ [] (Nat.zero_le n)
  · simp only [search_linkedin_jobs_fb]
    by_cases hc : primaryJobs.isEmpty = true
    · rw [if_pos hc]
      simpa using hgen
    · rw [if_neg hc]
      simpa using hp
  · simpa [search_linkedin_jobs_fb] using hgen
  · unfold search_linkedin_jobs_sel
    by_cases hr : requirements = []
    · rw [if_pos hr]
      simpa using hp
    · rw [if_neg hr]
      exact le_trans (List.length_filterMap_le _ _) hp

/-- Witness for C4 at `n = 5` with three raw elements, a two-page scrape
and an empty Selenium result. -/
theorem max_jobs_cap_witness :
    1 ≤ 5
    ∧ ([] : List JobListing).length ≤ 5
    ∧ ((primary_search [1, 2, 3] (fun _ => (none : Option JobListing)) 5).length ≤ 5
      ∧ (fb_search_jobs [[], []] "python" "" ["Python"] 5).length ≤ 5
      ∧ (search_linkedin_jobs_fb (some []) "python" "" ["Python"] 5).length ≤ 5
      ∧ (search_linkedin_jobs_fb none "python" "" ["Python"] 5).length ≤ 5
      ∧ (search_linkedin_jobs_sel [] ["Python"]).length ≤ 5) :=
  ⟨by decide, by decide,
    max_jobs_cap [1, 2, 3] (fun _ => none) [[], []] [] "python" "" ["Python"]
      5 (by decide) (by decide)⟩

/-- C5 (amended): the fallback module's inline `is_match` coincides with the
§4.1 matcher's `is_match` on `title ++ " " ++ description` (via the
spec-modelled `match_requirements`), but its inline `match_score` is the raw
*count* of matched requirements (`0` for an empty list), not the §4.1 ratio
`|matches|/|requirements|`. -/
theorem fb_inline_match_spec (title description : String)
    (requirements : List String) :
    fb_inline_is_match title description requirements
      = (calculate_match_score (title ++ " " ++ description)
          requirements).is_match
    ∧ fb_inline_match_score title description requirements
      = (if requirements = [] then 0
         else ((calculate_match_score (title ++ " " ++ description)
             requirements).matched.length : Rat)) := by
  refine ⟨rfl, ?_⟩
  by_cases h : requirements = [] <;>
    simp [fb_inline_match_score, calculate_match_score, h]

/-- C5 counterexample: for a record whose title and description contain both
requirements, the inline computation yields `match_score = 2` while the
§4.1 matcher yields `2/2 = 1` — the two implementations are not
extensionally equal on `match_score`. -/
theorem fb_inline_score_cex :
    fb_inline_match_score "Python Developer" "We use python and rust daily"
        ["python", "rust"]
      ≠ (calculate_match_score
          ("Python Developer" ++ " " ++ "We use python and rust daily")
          ["python", "rust"]).match_score := by
  decide

/-- A job dictionary as consumed by the export path (`sheets_client.py`):
the fields read by `add_jobs` / `filter_new_jobs` via `job.get(...)`.  Per
the spec's data model, `job_url` is always a string (possibly the
placeholder `"#"`). -/
structure ExportJob where
  title : String
  company : String
  location : String
  job_url : String
  posted_date : String
  employment_type : String
  experience_level : String
  salary_range : String
  match_score : Option Rat
  matched : List String
  description : String
  deriving Repr, DecidableEq

/-- One data row of the "Job Listings" sheet, as written by
`GoogleSheetsClient.add_jobs` (sheets_client.py:211-226). -/
structure SheetRow where
  title : String
  company : String
  location : String
  job_url : String
  posted_date : String
  employment_type : String
  experience_level : String
  salary_range : String
  match_score : Option Rat
  matches_cell : String
  description : String
  date_added : String
  deriving Repr, DecidableEq

/-- The spreadsheet state visible to the export path: the data rows (below
the header) of the "Job Listings" sheet. -/
structure Sheet where
  rows : List SheetRow
  deriving Repr, DecidableEq

/-- `GoogleSheetsClient.get_existing_jobs` (sheets_client.py:250-273): the
URL column (D) of the sheet, header excluded. -/
def get_existing_jobs (sheet : Sheet) : List String :=
  sheet.rows.map SheetRow.job_url

/-- `GoogleSheetsClient.filter_new_jobs` (sheets_client.py:275-285): keep
the jobs whose `job_url` is not already in the sheet's URL column (plain
set membership, no special cases). -/
def filter_new_jobs (jobs : List ExportJob) (sheet : Sheet) : List ExportJob :=
  jobs.filter (fun j => decide (j.job_url ∉ get_existing_jobs sheet))

/-- The row built for one job inside `GoogleSheetsClient.add_jobs`
(sheets_client.py:211-226); the description cell is the inline expression
`job.get('description','')[:1000] + '...' if len(...) > 1000 else ...`. -/
def job_to_row (now : String) (job : ExportJob) : SheetRow :=
  { title := job.title
    company := job.company
    location := job.location
    job_url := job.job_url
    posted_date := job.posted_date
    employment_type := job.employment_type
    experience_level := job.experience_level
    salary_range := job.salary_range
    match_score := job.match_score
    matches_cell := String.intercalate ", " job.matched
    description :=
      if 1000 < pyLen job.description then pyTake job.description 1000 ++ "..."
      else job.description
    date_added := now }

/-- `utils.truncate_text(text, max_length=1000, suffix="...")`
(utils.py:100-104): keeps `max_length - len(suffix)` characters and appends
the suffix.  `add_jobs` does *not* call it. -/
def truncate_text (text : String) (max_length : Nat) (suffix : String) :
    String :=
  if pyLen text ≤ max_length then text
  else pyTake text (max_length - pyLen suffix) ++ suffix

/-- `GoogleSheetsClient.add_jobs` (sheets_client.py:185-248): appends one
row per job after the current last row and returns the number of appended
rows (an empty job list appends nothing and returns 0). -/
def add_jobs (now : String) (jobs : List ExportJob) (sheet : Sheet) :
    Nat × Sheet :=
  if jobs = [] then (0, sheet)
  else (jobs.length, ⟨sheet.rows ++ jobs.map (job_to_row now)⟩)

/-- The result dictionary of `add_jobs_to_sheets`
(sheets_client.py:311-346): keys `success`, `jobs_added`, and the
*optional* keys `spreadsheet_url` and `error` (each present only on some
paths), plus `message`. -/
structure ExportResult where
  success : Bool
  jobs_added : Nat
  spreadsheet_url : Option String
  error : Option String
  message : String
  deriving Repr, DecidableEq

/-- The URL reported by `get_spreadsheet_info` (sheets_client.py:302). -/
def spreadsheet_url_of (spreadsheet_id : String) : String :=
  "https://docs.google.com/spreadsheets/d/" ++ spreadsheet_id

/-- `add_jobs_to_sheets(jobs, spreadsheet_id, filter_duplicates)`
(sheets_client.py:311-346).  `now` stands for the wall-clock timestamp and
`api_failure` for a persistence-layer exception (`some msg` makes any of
the remote calls raise, which the function converts into a failure
result).  Returns the result dictionary and the resulting sheet state. -/
def add_jobs_to_sheets (now : String) (api_failure : Option String)
    (spreadsheet_id : String) (jobs : List ExportJob) (sheet : Sheet)
    (filter_duplicates : Bool) : ExportResult × Sheet :=
  match api_failure with
  | some e =>
      ({ success := false, jobs_added := 0, spreadsheet_url := none,
         error := some e,
         message := "Failed to add jobs to spreadsheet: " ++ e }, sheet)
  | none =>
      let jobs2 := if filter_duplicates then filter_new_jobs jobs sheet else jobs
      if jobs2 = [] then
        ({ success := true, jobs_added := 0, spreadsheet_url := none,
           error := none, message := "No new jobs to add" }, sheet)
      else
        ({ success := true, jobs_added := (add_jobs now jobs2 sheet).1,
           spreadsheet_url := some (spreadsheet_url_of spreadsheet_id),
           error := none,
           message := s!"Successfully added {(add_jobs now jobs2 sheet).1} jobs to spreadsheet" },
         (add_jobs now jobs2 sheet).2)

theorem job_to_row_url (now : String) (job : ExportJob) :
    (job_to_row now job).job_url = job.job_url := rfl

/-- After one filtered export, every job of the input batch has its URL in
the sheet, so a second duplicate-filter pass removes everything. -/
theorem filter_new_jobs_after_append (now : String) (jobs : List ExportJob)
    (sheet : Sheet) :
    filter_new_jobs jobs
      ⟨sheet.rows ++ (filter_new_jobs jobs sheet).map (job_to_row now)⟩
      = [] := by
  refine List.filter_eq_nil_iff.mpr ?_
  intro j hj
  simp only [get_existing_jobs, List.map_append, List.map_map,
    List.mem_append, List.mem_map, decide_eq_true_eq, not_not, not_or]
  intro hcon
  rcases hcon with ⟨hnotold, hnotnew⟩
  by_cases hold : j.job_url ∈ get_existing_jobs sheet
  · exact hnotold (by simpa [get_existing_jobs] using hold)
  · apply hnotnew
    refine ⟨j, ?_, rfl⟩
    simp [filter_new_jobs, List.mem_filter, hj, hold]

/-- C6: export with `filter_duplicates = true` is idempotent: the first
call appends (exactly once) the jobs of the batch that were not already in
the sheet; the second call with the same batch appends nothing, returns
`jobs_added = 0`, and leaves the sheet unchanged. -/
theorem export_idempotent (now1 now2 : String) (sid : String)
    (jobs : List ExportJob) (sheet : Sheet) :
    (add_jobs_to_sheets now2 none sid jobs
        (add_jobs_to_sheets now1 none sid jobs sheet true).2 true).1.jobs_added
      = 0
    ∧ (add_jobs_to_sheets now2 none sid jobs
        (add_jobs_to_sheets now1 none sid jobs sheet true).2 true).2
      = (add_jobs_to_sheets now1 none sid jobs sheet true).2
    ∧ (add_jobs_to_sheets now1 none sid jobs sheet true).2.rows
      = sheet.rows ++ (filter_new_jobs jobs sheet).map (job_to_row now1) := by
  by_cases hf : filter_new_jobs jobs sheet = []
  · have h1 : (add_jobs_to_sheets now1 none sid jobs sheet true).2 = sheet := by
      simp [add_jobs_to_sheets, hf]
    rw [h1]
    refine ⟨?_, ?_, ?_⟩
    · simp [add_jobs_to_sheets, hf]
    · simp [add_jobs_to_sheets, hf]
    · simp [hf]
  · have h1 : (add_jobs_to_sheets now1 none sid jobs sheet true).2
        = ⟨sheet.rows ++ (filter_new_jobs jobs sheet).map (job_to_row now1)⟩ := by
      simp [add_jobs_to_sheets, hf, add_jobs]
    rw [h1]
    have h2 := filter_new_jobs_after_append now1 jobs sheet
    refine ⟨?_, ?_, ?_⟩
    · simp [add_jobs_to_sheets, h2]
    · simp [add_jobs_to_sheets, h2]
    · rfl

/-- C7 (amended): the duplicate filter treats the placeholder URL `"#"`
exactly like any other URL: a job is kept iff it is in the batch and its
`job_url` (placeholder or not) is absent from the sheet's URL column —
there is no special case exempting `"#"`. -/
theorem filter_new_jobs_mem (jobs : List ExportJob) (sheet : Sheet)
    (j : ExportJob) :
    j ∈ filter_new_jobs jobs sheet
      ↔ (j ∈ jobs ∧ j.job_url ∉ get_existing_jobs sheet) := by
  simp [filter_new_jobs, List.mem_filter]

/-- C7 counterexample: a job whose `job_url` is the placeholder `"#"` *is*
removed by the duplicate filter as soon as `"#"` already appears in the
sheet's URL column, contradicting the claim that it is never treated as a
real deduplication key. -/
theorem hash_url_dedup_cex :
    filter_new_jobs
      [{ title := "Job Title", company := "Company", location := "Location",
         job_url := "#", posted_date := "Recently", employment_type := "",
         experience_level := "", salary_range := "", match_score := none,
         matched := [], description := "Job opportunity at Company" }]
      ⟨[{ title := "Old Job", company := "Old Co", location := "Anywhere",
          job_url := "#", posted_date := "", employment_type := "",
          experience_level := "", salary_range := "", match_score := none,
          matches_cell := "", description := "old", date_added := "t" }]⟩
      = [] := by
  decide

theorem string_data_append (a b : String) : (a ++ b).data = a.data ++ b.data :=
  rfl

/-- C8 (amended): the description cell written by `add_jobs` keeps a
description of at most 1000 characters unchanged; a longer one is stored as
its first **1000** characters followed by `"..."` — 1003 characters in
total, not the claimed 997 + 3 = 1000.  The unused helper
`utils.truncate_text` is what would have produced a 1000-character result. -/
theorem description_truncation_spec (now : String) (job : ExportJob) :
    (pyLen job.description ≤ 1000 →
      (job_to_row now job).description = job.description)
    ∧ (1000 < pyLen job.description →
        (job_to_row now job).description
          = pyTake job.description 1000 ++ "..."
        ∧ pyLen ((job_to_row now job).description) = 1003)
    ∧ (1000 < pyLen job.description →
        pyLen (truncate_text job.description 1000 "...") = 1000) := by
  refine ⟨?_, ?_, ?_⟩
  · intro h
    simp [job_to_row, Nat.not_lt.mpr h]
  · intro h
    have hdesc : (job_to_row now job).description
        = pyTake job.description 1000 ++ "..." := by
      simp [job_to_row, h]
    refine ⟨hdesc, ?_⟩
    rw [hdesc]
    have h3 : ("..." : String).data.length = 3 := by decide
    have h1000 : 1000 ≤ job.description.data.length := by
      simpa [pyLen] using Nat.le_of_lt h
    show (job.description.data.take 1000 ++ ("..." : String).data).length = 1003
    rw [List.length_append, List.length_take, h3]
    omega
  · intro h
    have hnot : ¬ pyLen job.description ≤ 1000 := Nat.not_le.mpr h
    simp only [truncate_text, if_neg hnot]
    have h3 : ("..." : String).data.length = 3 := by decide
    have hp : pyLen ("..." : String) = 3 := by decide
    have h1000 : 1000 ≤ job.description.data.length := by
      simpa [pyLen] using Nat.le_of_lt h
    show (job.description.data.take (1000 - pyLen "...")
        ++ ("..." : String).data).length = 1000
    rw [List.length_append, List.length_take, h3, hp]
    omega

set_option maxRecDepth 10000 in
/-- Witness for C8's amended theorem at a concrete 1500-character
description: the stored cell is the first 1000 characters plus `"..."`
(1003 characters), while `truncate_text` would have produced 1000. -/
theorem description_truncation_spec_witness :
    1000 < pyLen (String.mk (List.replicate 1500 'a'))
    ∧ ((job_to_row "2024-01-01"
          { title := "T", company := "C", location := "L", job_url := "u",
            posted_date := "", employment_type := "", experience_level := "",
            salary_range := "", match_score := none, matched := [],
            description := String.mk (List.replicate 1500 'a') }).description
        = pyTake (String.mk (List.replicate 1500 'a')) 1000 ++ "..."
      ∧ pyLen ((job_to_row "2024-01-01"
          { title := "T", company := "C", location := "L", job_url := "u",
            posted_date := "", employment_type := "", experience_level := "",
            salary_range := "", match_score := none, matched := [],
            description := String.mk (List.replicate 1500 'a') }).description)
        = 1003)
    ∧ pyLen (truncate_text (String.mk (List.replicate 1500 'a')) 1000 "...")
        = 1000 :=
  ⟨by decide,
   (description_truncation_spec "2024-01-01"
     { title := "T", company := "C", location := "L", job_url := "u",
       posted_date := "", employment_type := "", experience_level := "",
       salary_range := "", match_score := none, matched := [],
       description := String.mk (List.replicate 1500 'a') }).2.1 (by decide),
   (description_truncation_spec "2024-01-01"
     { title := "T", company := "C", location := "L", job_url := "u",
       posted_date := "", employment_type := "", experience_level := "",
       salary_range := "", match_score := none, matched := [],
       description := String.mk (List.replicate 1500 'a') }).2.2 (by decide)⟩

set_option maxRecDepth 10000 in
/-- C8 counterexample: for a description of length 1500 the stored cell has
1003 characters and differs from the claimed "first 997 characters plus
ellipsis" (which would have exactly 1000). -/
theorem description_truncation_cex :
    pyLen ((job_to_row "2024-01-01"
      { title := "T", company := "C", location := "L", job_url := "u",
        posted_date := "", employment_type := "", experience_level := "",
        salary_range := "", match_score := none, matched := [],
        description := String.mk (List.replicate 1500 'a') }).description)
      = 1003
    ∧ (job_to_row "2024-01-01"
      { title := "T", company := "C", location := "L", job_url := "u",
        posted_date := "", employment_type := "", experience_level := "",
        salary_range := "", match_score := none, matched := [],
        description := String.mk (List.replicate 1500 'a') }).description
      ≠ pyTake (String.mk (List.replicate 1500 'a')) 997 ++ "..." := by
  exact ⟨by decide, by decide⟩

/-- C9 (amended): in every `ExportResult`, `error` is present iff the
export failed; `spreadsheet_url` however is present iff the export
succeeded *and at least one job was appended* — the successful
empty-after-filtering outcome (`success` with `jobs_added = 0`) carries no
`spreadsheet_url`. -/
theorem export_result_fields (now : String) (api_failure : Option String)
    (sid : String) (jobs : List ExportJob) (sheet : Sheet) (fd : Bool) :
    ((add_jobs_to_sheets now api_failure sid jobs sheet fd).1.error.isSome
      ↔ (add_jobs_to_sheets now api_failure sid jobs sheet fd).1.success
          = false)
    ∧ ((add_jobs_to_sheets now api_failure sid jobs sheet
          fd).1.spreadsheet_url.isSome
      ↔ ((add_jobs_to_sheets now api_failure sid jobs sheet fd).1.success
            = true
          ∧ 0 < (add_jobs_to_sheets now api_failure sid jobs sheet
              fd).1.jobs_added)) := by
  cases api_failure with
  | some e => simp [add_jobs_to_sheets]
  | none =>
      by_cases h : (if fd then filter_new_jobs jobs sheet else jobs) = []
      · simp [add_jobs_to_sheets, h]
      · simp [add_jobs_to_sheets, h, add_jobs]
        exact List.length_pos.mpr h

/-- C9 counterexample: exporting a batch whose single job is already in the
sheet (with duplicate filtering on) succeeds with `jobs_added = 0` but the
result carries **no** `spreadsheet_url`, contradicting
"`spreadsheet_url` present iff success". -/
theorem export_url_missing_cex :
    (add_jobs_to_sheets "2024-01-01" none "sheet1"
      [{ title := "T", company := "C", location := "L",
         job_url := "https://jobs.example/1", posted_date := "",
         employment_type := "", experience_level := "", salary_range := "",
         match_score := none, matched := [], description := "d" }]
      ⟨[{ title := "T", company := "C", location := "L",
          job_url := "https://jobs.example/1", posted_date := "",
          employment_type := "", experience_level := "", salary_range := "",
          match_score := none, matches_cell := "", description := "d",
          date_added := "t0" }]⟩ true).1.success = true
    ∧ (add_jobs_to_sheets "2024-01-01" none "sheet1"
      [{ title := "T", company := "C", location := "L",
         job_url := "https://jobs.example/1", posted_date := "",
         employment_type := "", experience_level := "", salary_range := "",
         match_score := none, matched := [], description := "d" }]
      ⟨[{ title := "T", company := "C", location := "L",
          job_url := "https://jobs.example/1", posted_date := "",
          employment_type := "", experience_level := "", salary_range := "",
          match_score := none, matches_cell := "", description := "d",
          date_added := "t0" }]⟩ true).1.jobs_added = 0
    ∧ (add_jobs_to_sheets "2024-01-01" none "sheet1"
      [{ title := "T", company := "C", location := "L",
         job_url := "https://jobs.example/1", posted_date := "",
         employment_type := "", experience_level := "", salary_range := "",
         match_score := none, matched := [], description := "d" }]
      ⟨[{ title := "T", company := "C", location := "L",
          job_url := "https://jobs.example/1", posted_date := "",
          employment_type := "", experience_level := "", salary_range := "",
          match_score := none, matches_cell := "", description := "d",
          date_added := "t0" }]⟩ true).1.spreadsheet_url = none := by
  exact ⟨by decide, by decide, by decide⟩

/-- A raw inbound search request body before model validation (`none`
marks an absent field); only the two fields with validation rules are
carried. -/
structure RawSearchRequest where
  keywords : Option String
  max_jobs : Option Int
  deriving Repr, DecidableEq

/-- Pydantic validation of `api.py`'s `JobSearchRequest` (api.py:55-65):
`keywords` is a required string with **no** emptiness constraint;
`max_jobs` defaults to 25 and is constrained by `ge=1, le=100`.  Errors
name the offending fields. -/
def api_validate (r : RawSearchRequest) :
    Except (List String) (String × Int) :=
  let errs :=
    (match r.keywords with
     | none => ["keywords"]
     | some _ => [])
    ++ (match r.max_jobs with
        | none => []
        | some n => if n < 1 ∨ 100 < n then ["max_jobs"] else [])
  if errs = [] then Except.ok (r.keywords.getD "", r.max_jobs.getD 25)
  else Except.error errs

/-- Pydantic validation of `server.py`'s `JobSearchRequest`
(server.py:41-51): `keywords` is required; `max_jobs` defaults to 25 with
no bounds declared at all. -/
def server_validate (r : RawSearchRequest) :
    Except (List String) (String × Int) :=
  match r.keywords with
  | none => Except.error ["keywords"]
  | some k => Except.ok (k, r.max_jobs.getD 25)

/-- C10 (amended): in the FastAPI front end a request with `max_jobs ≤ 0`
(or above 100) is rejected by model validation — before any scraping — with
an error naming `max_jobs`; but a present-yet-empty `keywords` string
passes validation, and the MCP front end accepts any `max_jobs`
whatsoever. -/
theorem request_validation_spec (k : String) (n : Int) :
    (n < 1 → api_validate ⟨some k, some n⟩ = Except.error ["max_jobs"])
    ∧ (1 ≤ n → n ≤ 100 → api_validate ⟨some k, some n⟩ = Except.ok (k, n))
    ∧ server_validate ⟨some k, some n⟩ = Except.ok (k, n) := by
  refine ⟨?_, ?_, rfl⟩
  · intro h
    simp [api_validate, if_pos (Or.inl h)]
  · intro h1 h2
    have hc : ¬ (n < 1 ∨ 100 < n) := by
      push_neg
      exact ⟨h1, h2⟩
    simp [api_validate, if_neg hc]

/-- Witness for C10's amended theorem: `max_jobs = 0` is rejected naming
`max_jobs`, while `max_jobs = 25` is accepted, and the MCP model accepts
even `max_jobs = 0`. -/
theorem request_validation_spec_witness :
    ((0 : Int) < 1
      ∧ api_validate ⟨some "", some 0⟩ = Except.error ["max_jobs"])
    ∧ ((1 : Int) ≤ 25 ∧ (25 : Int) ≤ 100
      ∧ api_validate ⟨some "", some 25⟩ = Except.ok ("", 25))
    ∧ server_validate ⟨some "", some 0⟩ = Except.ok ("", 0) :=
  ⟨⟨by decide, (request_validation_spec "" 0).1 (by decide)⟩,
   ⟨by decide, by decide,
    (request_validation_spec "" 25).2.1 (by decide) (by decide)⟩,
   (request_validation_spec "" 0).2.2⟩

/-- C10 counterexample: a request with empty (but present) `keywords` is
*accepted* by the FastAPI validation, and a request with `max_jobs = 0` is
*accepted* by the MCP server's validation — neither is rejected as the
claim requires. -/
theorem empty_keywords_accepted_cex :
    api_validate ⟨some "", some 25⟩ = Except.ok ("", 25)
    ∧ server_validate ⟨some "x", some 0⟩ = Except.ok ("x", 0) := by
  exact ⟨rfl, rfl⟩
